import Mathlib

/-!
Verification of the video-to-audio conversion utility (thunderblog/video-to-audio).

This file shallowly embeds the core of the repository — the format/path
utilities (`src/utils.py`), the error taxonomy (`src/exceptions.py`) and the
conversion engine (`src/converter.py`) — as executable Lean definitions, and
proves or refutes the frozen specification claims about them.

Modelling conventions:
* Python `pathlib.Path` values are modelled as their list of parts
  (`PyPath := List String`); `name`, `stem`, `suffix` follow pathlib's
  documented rules (the last `.` splits the final component, except when it is
  the first or last character of the component).
* Python floats are modelled as exact rationals `ℚ`; `int(x)` is truncation
  toward zero, `x // y` is `⌊x / y⌋`, `x % y` is `x - y * ⌊x / y⌋`.
* Filesystem and subprocess effects are passed in explicitly as values
  (`Except String Nat` for a `stat`/`disk_usage` call that may raise `OSError`,
  a `RunOutcome` for the ffmpeg subprocess), so the orchestration in
  `convert_file` becomes a pure function of those outcomes.
* Raising an exception is modelled with `Except`; the custom exception
  hierarchy of `exceptions.py` becomes the inductive `ConverterError`.
  `InsufficientSpaceError` and friends derive from `VideoConverterError`
  (a plain `Exception`), not from `OSError`: an `except OSError` handler in
  Python does *not* catch them, and the embedding reflects that.
-/

namespace VideoToAudio

/-! ## Python string/path primitives -/

/-- Index of the last `'.'` in a list of characters, if any
(the later occurrence wins, matching `str.rfind`). -/
def lastDotAux : List Char → Option Nat
  | [] => none
  | c :: cs =>
    match lastDotAux cs with
    | some i => some (i + 1)
    | none => if c = '.' then some 0 else none

/-- Python `pathlib.PurePath.stem` applied to a final path component: drop the last
extension, where a dot at position 0 or at the very end does not start an
extension. -/
def pyStem (name : String) : String :=
  match lastDotAux name.toList with
  | some i =>
    if 0 < i ∧ i + 1 < name.toList.length then ⟨name.toList.take i⟩ else name
  | none => name

/-- Python `pathlib.PurePath.suffix` applied to a final path component. -/
def pySuffix (name : String) : String :=
  match lastDotAux name.toList with
  | some i =>
    if 0 < i ∧ i + 1 < name.toList.length then ⟨name.toList.drop i⟩ else ""
  | none => ""

/-- A `pathlib.Path`, as its tuple of parts. `Path(".")` has no parts. -/
abbrev PyPath := List String

/-- The `Path.name` field: the final component, `""` when there is none. -/
def pathName (p : PyPath) : String := p.getLast?.getD ("")

/-- Joining, `path / component`. -/
def pathJoin (p : PyPath) (component : String) : PyPath :=
  (p : List String) ++ [component]

/-- Rendering `str(path)` (POSIX flavour), used only inside error messages. -/
def pathStr (p : PyPath) : String := String.intercalate ("/") p

/-- ASCII lower-casing of one character (`str.lower` restricted to ASCII,
which is all the fixed extension list exercises). -/
def pyLowerChar (c : Char) : Char :=
  if 'A' ≤ c ∧ c ≤ 'Z' then Char.ofNat (c.toNat + 32) else c

/-- Python `str.lower()`. -/
def strLower (s : String) : String := ⟨s.toList.map pyLowerChar⟩

/-! ## Python numeric primitives (floats as exact rationals) -/

/-- Python `int(x)` on a float: truncation toward zero. -/
def pyInt (q : ℚ) : ℤ := q.num.tdiv q.den

/-- Python float `x // y`: floor division (result is an integral float). -/
def pyFloorDiv (a b : ℚ) : ℚ := (⌊a / b⌋ : ℤ)

/-- Python float `x % y`: remainder with the divisor's sign,
`x - y * (x // y)`. -/
def pyMod (a b : ℚ) : ℚ := a - b * (⌊a / b⌋ : ℤ)

/-- Python `f"{n:02d}"`: pad the decimal rendering to width 2 with zeros. -/
def format02d (n : ℤ) : String :=
  let s := toString n
  if s.length < 2 then "0" ++ s else s

/-- Round to the nearest integer, ties to even — the rounding used by
Python's fixed-point float formatting. -/
def roundHalfEven (q : ℚ) : ℤ :=
  let f := ⌊q⌋
  let frac := q - (f : ℚ)
  if frac < 1 / 2 then f
  else if 1 / 2 < frac then f + 1
  else if f % 2 = 0 then f else f + 1

/-- Python `f"{q:.1f}"` for a non-negative value: integer part, a dot, and
exactly one decimal digit. -/
def formatOneDecimal (q : ℚ) : String :=
  let r := roundHalfEven (q * 10)
  toString (r / 10) ++ "." ++ toString (r % 10)

/-! ## Error taxonomy (`src/exceptions.py`)

Every constructor carries `message` and an optional `file_path`, exactly like
`VideoConverterError.__init__`; constructors that the code always raises
without a path get `none` at the raise site. -/

inductive ConverterError where
  | fileNotFoundError (message : String) (file_path : Option String)
  | unsupportedFormatError (message : String) (file_path : Option String)
  | ffmpegNotFoundError (message : String) (file_path : Option String)
  | conversionError (message : String) (file_path : Option String)
  | insufficientSpaceError (message : String) (file_path : Option String)
  | permissionError (message : String) (file_path : Option String)
  | fileInUseError (message : String) (file_path : Option String)
deriving DecidableEq

/-- The coarse kind of a `ConverterError`, for programmatic matching. -/
inductive ErrorKind where
  | inputNotFound
  | unsupportedFormat
  | encoderNotFound
  | conversionFailed
  | insufficientSpace
  | permissionDenied
  | fileInUse
deriving DecidableEq

def ConverterError.kind : ConverterError → ErrorKind
  | .fileNotFoundError _ _ => .inputNotFound
  | .unsupportedFormatError _ _ => .unsupportedFormat
  | .ffmpegNotFoundError _ _ => .encoderNotFound
  | .conversionError _ _ => .conversionFailed
  | .insufficientSpaceError _ _ => .insufficientSpace
  | .permissionError _ _ => .permissionDenied
  | .fileInUseError _ _ => .fileInUse

def ConverterError.message : ConverterError → String
  | .fileNotFoundError m _ => m
  | .unsupportedFormatError m _ => m
  | .ffmpegNotFoundError m _ => m
  | .conversionError m _ => m
  | .insufficientSpaceError m _ => m
  | .permissionError m _ => m
  | .fileInUseError m _ => m

/-! ## Format & path utilities (`src/utils.py`) -/

/-- The `SUPPORTED_VIDEO_FORMATS` set. -/
def SUPPORTED_VIDEO_FORMATS : List String :=
  [".mp4", ".avi", ".mov", ".mkv", ".wmv", ".flv", ".webm", ".m4v", ".3gp",
   ".ts", ".mts", ".m2ts"]

/-- Source `is_supported_video_format`: lower-cased suffix membership. -/
def is_supported_video_format (file_path : PyPath) : Bool :=
  SUPPORTED_VIDEO_FORMATS.contains (strLower (pySuffix (pathName file_path)))

/-- Source `get_output_path`: `output_dir / (input_path.stem + ".mp3")`. -/
def get_output_path (input_path : PyPath) (output_dir : PyPath) : PyPath :=
  pathJoin output_dir (pyStem (pathName input_path) ++ ".mp3")

/-- Source `format_file_size`: human-readable byte count. The argument is the Python
`int`; only the `B` branch is reachable for negatives. -/
def format_file_size (size_bytes : ℤ) : String :=
  if size_bytes < 1024 then toString size_bytes ++ " B"
  else if size_bytes < 1024 * 1024 then
    formatOneDecimal ((size_bytes : ℚ) / 1024) ++ " KB"
  else if size_bytes < 1024 * 1024 * 1024 then
    formatOneDecimal ((size_bytes : ℚ) / (1024 * 1024)) ++ " MB"
  else
    formatOneDecimal ((size_bytes : ℚ) / (1024 * 1024 * 1024)) ++ " GB"

/-- A directory entry observed by `Path.iterdir`: its final component and
whether it is a regular file. -/
structure DirEntry where
  name : String
  isFile : Bool
deriving DecidableEq

/-- The filesystem facts `get_video_files` consults about its argument. -/
structure DirState where
  present : Bool
  is_dir : Bool
  entries : List DirEntry
deriving DecidableEq

/-- Does a final component's extension pass `is_supported_video_format`?
(The extension of `dir / name` depends only on `name`.) -/
def isSupportedName (name : String) : Bool :=
  SUPPORTED_VIDEO_FORMATS.contains (strLower (pySuffix name))

/-- Source `get_video_files`: empty unless the directory exists and is a directory;
otherwise the regular entries with a supported extension, sorted. Python's
`sorted` on same-directory `Path`s orders by filename; insertion sort is used
here since both are stable and hence agree. -/
def get_video_files (d : DirState) : List String :=
  if d.present && d.is_dir then
    List.insertionSort (· ≤ ·)
      ((d.entries.filter fun e => e.isFile && isSupportedName e.name).map
        DirEntry.name)
  else []

/-- Source `check_disk_space`: the `shutil.disk_usage` call is passed in as its
outcome (`.error` models an `OSError` with the given text). Note the
`except OSError` inside the function turns such a failure into an
`InsufficientSpaceError` — which is *not* an `OSError`. -/
def check_disk_space (disk_usage : Except String Nat)
    (required_space_mb : ℤ) : Except ConverterError Unit :=
  match disk_usage with
  | .error e =>
    .error (.insufficientSpaceError
      ("容量チェック中にエラーが発生しました: " ++ e) none)
  | .ok free =>
    let free_space_mb : ℚ := (free : ℚ) / (1024 * 1024)
    if free_space_mb < (required_space_mb : ℚ) then
      .error (.insufficientSpaceError
        ("空き容量が不足しています。必要: " ++ toString required_space_mb ++
          "MB, 利用可能: " ++ formatOneDecimal free_space_mb ++ "MB") none)
    else .ok ()

/-! ## Conversion engine (`src/converter.py`) -/

/-- The estimate `max(int(input_size_mb * 0.15), 10)` where
`input_size_mb = st_size / (1024 * 1024)` — the estimated output size, in MB,
passed to `check_disk_space`. Float arithmetic is modelled exactly over ℚ. -/
def estimated_output_size (st_size : Nat) : ℤ :=
  let input_size_mb : ℚ := (st_size : ℚ) / (1024 * 1024)
  max (pyInt (input_size_mb * (15 / 100))) 10

/-- The space-check phase of `convert_file`: `input_path.stat().st_size` and
`shutil.disk_usage` are passed in as outcomes. Only an `OSError` escaping the
`try` block (i.e. from `stat`) is re-raised as `PermissionError`; errors that
`check_disk_space` raises are `VideoConverterError`s and pass through. -/
def space_check_phase (stat_size : Except String Nat)
    (disk_usage : Except String Nat) (input_path : PyPath) :
    Except ConverterError Unit :=
  match stat_size with
  | .error e =>
    .error (.permissionError ("ファイルにアクセスできません: " ++ e)
      (some (pathStr input_path)))
  | .ok st_size => check_disk_space disk_usage (estimated_output_size st_size)

/-- An `ffmpeg.Error`: captured stderr (possibly absent) and the `str(e)`
fallback text. -/
structure FfmpegError where
  stderr : Option String
  str : String
deriving DecidableEq

/-- The diagnostic text `convert_file` classifies:
`e.stderr.decode("utf-8") if e.stderr else str(e)` (empty captured stderr is
falsy, so it also falls back to `str(e)`). -/
def FfmpegError.errorMessage (e : FfmpegError) : String :=
  match e.stderr with
  | some s => if s = "" then e.str else s
  | none => e.str

/-- Substring test, Python's `pat in s`. -/
def strContains (s pat : String) : Bool := decide (pat.toList <:+: s.toList)

/-- The `except ffmpeg.Error` branch of `convert_file`: map the diagnostic
text to a taxonomy error by first-match substring rules. -/
def classify_ffmpeg_error (error_message : String) (input_path : PyPath) :
    ConverterError :=
  if strContains error_message ("Permission denied") ||
      strContains error_message ("Access is denied") then
    .permissionError ("ファイルアクセス権限がありません") (some (pathStr input_path))
  else if strContains error_message ("Resource busy") ||
      strContains error_message ("being used by another process") then
    .fileInUseError ("ファイルが他のプロセスで使用中です") (some (pathStr input_path))
  else if strContains error_message ("No space left") then
    .insufficientSpaceError ("容量が不足しています") none
  else
    .conversionError ("変換中にエラーが発生しました: " ++ error_message)
      (some (pathStr input_path))

/-- Outcome of the `ffmpeg.run` block: success, an `ffmpeg.Error`, or any
other exception (caught by the trailing `except Exception`). -/
inductive RunOutcome where
  | ok
  | ffmpegError (e : FfmpegError)
  | otherExc (msg : String)
deriving DecidableEq

/-- The environment `convert_file` interacts with: whether the input exists,
the outcomes of `stat`, `disk_usage` and the encoder subprocess. -/
structure ConvertEnv where
  inputExists : Bool
  stat_size : Except String Nat
  disk_usage : Except String Nat
  run : RunOutcome

/-- Source `VideoToAudioConverter.convert_file`, returning the raised error or the
output path, paired with whether the ffmpeg subprocess was launched. -/
def convert_file (env : ConvertEnv) (input_path : PyPath)
    (output_dir : PyPath) : Except ConverterError PyPath × Bool :=
  if !env.inputExists then
    (.error (.fileNotFoundError ("入力ファイルが見つかりません")
      (some (pathStr input_path))), false)
  else if !is_supported_video_format input_path then
    (.error (.unsupportedFormatError
      ("対応していない形式です: " ++ pySuffix (pathName input_path))
      (some (pathStr input_path))), false)
  else
    let output_path := get_output_path input_path output_dir
    match space_check_phase env.stat_size env.disk_usage input_path with
    | .error e => (.error e, false)
    | .ok _ =>
      match env.run with
      | .ok => (.ok output_path, true)
      | .ffmpegError e =>
        (.error (classify_ffmpeg_error e.errorMessage input_path), true)
      | .otherExc m =>
        (.error (.conversionError ("予期しないエラーが発生しました: " ++ m)
          (some (pathStr input_path))), true)

/-! ## Metadata probe (`get_file_info`) -/

/-- Accumulate decimal digits; `none` on any non-digit. -/
def parseNatAux : List Char → ℕ → Option ℕ
  | [], acc => some acc
  | c :: cs, acc =>
    if c.isDigit then parseNatAux cs (acc * 10 + (c.toNat - 48)) else none

/-- Parse a non-empty all-digit string. -/
def parseNatStr (s : String) : Option ℕ :=
  if s.isEmpty then none else parseNatAux s.toList 0

/-- Python `int(s)` on a string: optional sign then digits, else a
`ValueError`. -/
def pyIntOfString (s : String) : Except String ℤ :=
  let fail : Except String ℤ :=
    .error ("invalid literal for int() with base 10: " ++ s)
  match s.toList with
  | '-' :: cs =>
    match parseNatStr ⟨cs⟩ with
    | some n => .ok (-(n : ℤ))
    | none => fail
  | '+' :: cs =>
    match parseNatStr ⟨cs⟩ with
    | some n => .ok (n : ℤ)
    | none => fail
  | _ =>
    match parseNatStr s with
    | some n => .ok (n : ℤ)
    | none => fail

/-- Python `float(s)` on a decimal string `[sign] digits [. digits]`
(exact rational value), else a `ValueError`. -/
def pyFloatOfString (s : String) : Except String ℚ :=
  let fail : Except String ℚ :=
    .error ("could not convert string to float: " ++ s)
  let (sign, body) : ℚ × String :=
    match s.toList with
    | '-' :: cs => (-1, ⟨cs⟩)
    | '+' :: cs => (1, ⟨cs⟩)
    | _ => (1, s)
  match body.splitOn (".") with
  | [i] =>
    match parseNatStr i with
    | some n => .ok (sign * n)
    | none => fail
  | [i, f] =>
    if i.isEmpty ∧ f.isEmpty then fail
    else
      let ip : Option ℕ := if i.isEmpty then some 0 else parseNatStr i
      let fp : Option ℕ := if f.isEmpty then some 0 else parseNatStr f
      match ip, fp with
      | some n, some m => .ok (sign * ((n : ℚ) + (m : ℚ) / 10 ^ f.length))
      | _, _ => fail
  | _ => fail

/-- A stream object of the probe document; absent keys are `none`. -/
structure ProbeStream where
  codec_type : String
  codec_name : Option String
  bit_rate : Option String
  sample_rate : Option String

/-- The `format` object of the probe document; absent keys are `none`. -/
structure ProbeFormat where
  size : Option String
  duration : Option String
  format_name : Option String

/-- The parsed JSON document `ffmpeg.probe` returns. A missing `"streams"`
key (`KeyError` on `probe["streams"]`) is modelled by `streams = none`;
`probe.get("format", {})` never raises, so a missing `format` is `none`. -/
structure ProbeDoc where
  streams : Option (List ProbeStream)
  format : Option ProbeFormat

/-- The `dict.get` chain `info.get(key, "不明")` over an optional stream. -/
def streamGet (s : Option ProbeStream) (f : ProbeStream → Option String) :
    String :=
  ((s.bind f).getD ("不明"))

/-- The fields of the dict `get_file_info` builds on success. -/
structure FileInfo where
  filename : String
  size : String
  duration : ℚ
  format_name : String
  video_codec : String
  audio_codec : String
  audio_bitrate : String
  sample_rate : String

/-- The two shapes `get_file_info` can return: the info dict, or the
`{"error": msg}` dict. -/
inductive FileInfoResult where
  | info (d : FileInfo)
  | error (msg : String)

/-- Access `probe["streams"]`, a `KeyError` when the key is missing. -/
def get_streams (doc : ProbeDoc) : Except String (List ProbeStream) :=
  match doc.streams with
  | some ss => Except.ok ss
  | none => Except.error ("KeyError: streams")

/-- Evaluation of `int(format_info.get("size", 0))`. -/
def parse_size_field (o : Option String) : Except String ℤ :=
  match o with
  | some s => pyIntOfString s
  | none => Except.ok 0

/-- Evaluation of `float(format_info.get("duration", 0))`. -/
def parse_duration_field (o : Option String) : Except String ℚ :=
  match o with
  | some s => pyFloatOfString s
  | none => Except.ok 0

/-- Construction of the info dict from the parsed pieces (the trailing,
non-raising part of the body). -/
def mk_file_info (file_name : String) (streams : List ProbeStream)
    (format_info : ProbeFormat) (size : ℤ) (duration : ℚ) : FileInfo :=
  let video_info := streams.find? fun s => s.codec_type = "video"
  let audio_info := streams.find? fun s => s.codec_type = "audio"
  { filename := file_name
    size := format_file_size size
    duration := duration
    format_name := format_info.format_name.getD ("不明")
    video_codec := streamGet video_info ProbeStream.codec_name
    audio_codec := streamGet audio_info ProbeStream.codec_name
    audio_bitrate := streamGet audio_info ProbeStream.bit_rate
    sample_rate := streamGet audio_info ProbeStream.sample_rate }

/-- The body of `get_file_info` inside its `try`: each statement that can
raise propagates its exception, exactly in source order. `ffmpeg.probe` is
passed in as its outcome. -/
def get_file_info_body (probe_res : Except String ProbeDoc)
    (file_name : String) : Except String FileInfo :=
  match probe_res with
  | .error e => .error e
  | .ok probe =>
    match get_streams probe with
    | .error e => .error e
    | .ok streams =>
      let format_info := probe.format.getD ⟨none, none, none⟩
      match parse_size_field format_info.size with
      | .error e => .error e
      | .ok size =>
        match parse_duration_field format_info.duration with
        | .error e => .error e
        | .ok duration =>
          .ok (mk_file_info file_name streams format_info size duration)

/-- Source `VideoToAudioConverter.get_file_info`: the whole body is wrapped in
`try ... except Exception`, so every failure becomes the error-dict. -/
def get_file_info (probe_res : Except String ProbeDoc) (file_name : String) :
    FileInfoResult :=
  match get_file_info_body probe_res file_name with
  | .ok d => .info d
  | .error e => .error ("ファイル情報の取得に失敗しました: " ++ e)

/-- Source `format_duration`: seconds to `HH:MM:SS` / `MM:SS`. -/
def format_duration (seconds : ℚ) : String :=
  let hours := pyInt (pyFloorDiv seconds 3600)
  let minutes := pyInt (pyFloorDiv (pyMod seconds 3600) 60)
  let secs := pyInt (pyMod seconds 60)
  if 0 < hours then
    format02d hours ++ ":" ++ format02d minutes ++ ":" ++ format02d secs
  else
    format02d minutes ++ ":" ++ format02d secs

/-! ## Basic lemmas about the path primitives -/

theorem toList_ne_nil {s : String} (h : s ≠ "") : s.toList ≠ [] := by
  intro hd
  apply h
  cases s with
  | mk d =>
    simp only [String.toList] at hd
    subst hd
    rfl

theorem lastDotAux_append {ys : List Char} {i : Nat} (xs : List Char)
    (h : lastDotAux ys = some i) :
    lastDotAux (xs ++ ys) = some (xs.length + i) := by
  induction xs with
  | nil => simpa using h
  | cons c cs ih =>
    have hstep : lastDotAux (c :: (cs ++ ys)) =
        match lastDotAux (cs ++ ys) with
        | some j => some (j + 1)
        | none => if c = '.' then some 0 else none := rfl
    rw [List.cons_append, hstep, ih]
    show some (cs.length + i + 1) = some ((c :: cs).length + i)
    exact congrArg some (by simp only [List.length_cons]; omega)

theorem toList_append_mp3 (s : String) :
    (s ++ ".mp3").toList = s.toList ++ (".mp3").toList := by
  simp [String.toList]

theorem length_toList_append_mp3 (s : String) :
    (s ++ ".mp3").toList.length = s.toList.length + 4 := by
  rw [toList_append_mp3]
  simp

theorem lastDotAux_append_mp3 (s : String) :
    lastDotAux ((s ++ ".mp3").toList) = some s.toList.length := by
  have h0 : lastDotAux (".mp3").toList = some 0 := by decide
  rw [toList_append_mp3, lastDotAux_append s.toList h0]
  simp

theorem pyStem_append_mp3 {s : String} (h : s ≠ "") : pyStem (s ++ ".mp3") = s := by
  have hlen : 0 < s.toList.length := List.length_pos.2 (toList_ne_nil h)
  have hcond : 0 < s.toList.length ∧
      s.toList.length + 1 < (s ++ ".mp3").toList.length := by
    refine ⟨hlen, ?_⟩
    rw [length_toList_append_mp3]
    omega
  unfold pyStem
  rw [lastDotAux_append_mp3]
  show (if 0 < s.toList.length ∧ s.toList.length + 1 < (s ++ ".mp3").toList.length
      then (⟨(s ++ ".mp3").toList.take s.toList.length⟩ : String) else s ++ ".mp3") = s
  rw [if_pos hcond, toList_append_mp3, List.take_left]
  cases s
  rfl

theorem pySuffix_append_mp3 {s : String} (h : s ≠ "") :
    pySuffix (s ++ ".mp3") = ".mp3" := by
  have hlen : 0 < s.toList.length := List.length_pos.2 (toList_ne_nil h)
  have hcond : 0 < s.toList.length ∧
      s.toList.length + 1 < (s ++ ".mp3").toList.length := by
    refine ⟨hlen, ?_⟩
    rw [length_toList_append_mp3]
    omega
  unfold pySuffix
  rw [lastDotAux_append_mp3]
  show (if 0 < s.toList.length ∧ s.toList.length + 1 < (s ++ ".mp3").toList.length
      then (⟨(s ++ ".mp3").toList.drop s.toList.length⟩ : String) else "") = ".mp3"
  rw [if_pos hcond, toList_append_mp3, List.drop_left]
  rfl

theorem pyStem_ne_empty {name : String} (h : name ≠ "") : pyStem name ≠ "" := by
  unfold pyStem
  cases hld : lastDotAux name.toList with
  | none => exact h
  | some i =>
    by_cases hc : 0 < i ∧ i + 1 < name.toList.length
    · show (if 0 < i ∧ i + 1 < name.toList.length
          then (⟨name.toList.take i⟩ : String) else name) ≠ ""
      rw [if_pos hc]
      intro he
      have hdata : name.toList.take i = [] := congrArg String.data he
      have hne : name.toList.take i ≠ [] := by
        apply List.ne_nil_of_length_pos
        rw [List.length_take]
        omega
      exact hne hdata
    · show (if 0 < i ∧ i + 1 < name.toList.length
          then (⟨name.toList.take i⟩ : String) else name) ≠ ""
      rw [if_neg hc]
      exact h

theorem pathName_get_output_path (p d : PyPath) :
    pathName (get_output_path p d) = pyStem (pathName p) ++ ".mp3" := by
  simp [get_output_path, pathJoin, pathName, List.getLast?_concat]

/-- C5 (amended): for every input path whose final component is nonempty and
every output directory, the derived output path carries the `.mp3` suffix and
re-derivation is idempotent. (A path with no final component, such as `.`,
derives to `d/.mp3`, whose pathlib stem is `.mp3` itself, so re-derivation
appends a second `.mp3` — see the counterexample.) -/
theorem get_output_path_mp3_idempotent (p d : PyPath) (h : pathName p ≠ "") :
    pySuffix (pathName (get_output_path p d)) = ".mp3" ∧
    get_output_path (get_output_path p d) d = get_output_path p d := by
  have hstem := pyStem_ne_empty h
  constructor
  · rw [pathName_get_output_path, pySuffix_append_mp3 hstem]
  · show pathJoin d (pyStem (pathName (get_output_path p d)) ++ ".mp3") = _
    rw [pathName_get_output_path, pyStem_append_mp3 hstem]
    rfl

/-- C5 witness: the theorem at `p = video.mp4`, `d = mp3`. -/
theorem get_output_path_mp3_idempotent_witness :
    pathName (["video.mp4"] : PyPath) ≠ "" ∧
    (pySuffix (pathName (get_output_path ["video.mp4"] ["mp3"])) = ".mp3" ∧
      get_output_path (get_output_path ["video.mp4"] ["mp3"]) ["mp3"] =
        get_output_path ["video.mp4"] ["mp3"]) :=
  ⟨by decide, get_output_path_mp3_idempotent ["video.mp4"] ["mp3"] (by decide)⟩

/-- C5 counterexample: for `p = Path(".")` (no final component) and
`d = out`, re-derivation is not idempotent: `out/.mp3` re-derives to
`out/.mp3.mp3`. -/
theorem get_output_path_not_idempotent_on_empty_name :
    get_output_path (get_output_path ([] : PyPath) (["out"] : PyPath)) ["out"] ≠
      get_output_path ([] : PyPath) ["out"] := by
  decide

/-- C10: the derived output path depends only on the input stem, so two
inputs with equal stems (for example `video.mp4` and `video.avi`) map to the
same output path in any directory — the later conversion overwrites the
earlier output (the encoder is invoked with overwrite). -/
theorem get_output_path_stem_determined :
    (∀ (p q d : PyPath), pyStem (pathName p) = pyStem (pathName q) →
      get_output_path p d = get_output_path q d) ∧
    get_output_path (["video.mp4"] : PyPath) (["mp3"] : PyPath) =
      get_output_path (["video.avi"] : PyPath) (["mp3"] : PyPath) := by
  constructor
  · intro p q d h
    simp [get_output_path, h]
  · decide

/-- C10 witness: the general part applied to `video.mp4` and `video.avi`. -/
theorem get_output_path_stem_determined_witness :
    pyStem (pathName (["video.mp4"] : PyPath)) =
      pyStem (pathName (["video.avi"] : PyPath)) ∧
    get_output_path (["video.mp4"] : PyPath) (["mp3"] : PyPath) =
      get_output_path (["video.avi"] : PyPath) (["mp3"] : PyPath) :=
  ⟨by decide,
    get_output_path_stem_determined.1 ["video.mp4"] ["video.avi"] ["mp3"]
      (by decide)⟩

/-! ## Numeric helper lemmas -/

theorem pyInt_intCast (n : ℤ) : pyInt ((n : ℤ) : ℚ) = n := by
  simp [pyInt]

theorem pyInt_eq_floor {q : ℚ} (h : 0 ≤ q) : pyInt q = ⌊q⌋ := by
  rw [pyInt, Rat.floor_def]
  exact Int.tdiv_eq_ediv (Rat.num_nonneg.2 h) (Int.ofNat_nonneg _)

theorem pyMod_eq_mul_fract {b : ℚ} (hb : b ≠ 0) (a : ℚ) :
    pyMod a b = b * Int.fract (a / b) := by
  rw [pyMod, Int.fract, mul_sub, mul_div_cancel₀ a hb]

theorem pyMod_nonneg {b : ℚ} (hb : 0 < b) (a : ℚ) : 0 ≤ pyMod a b := by
  rw [pyMod_eq_mul_fract (ne_of_gt hb)]
  exact mul_nonneg (le_of_lt hb) (Int.fract_nonneg _)

theorem pyMod_lt {b : ℚ} (hb : 0 < b) (a : ℚ) : pyMod a b < b := by
  rw [pyMod_eq_mul_fract (ne_of_gt hb)]
  calc b * Int.fract (a / b) < b * 1 :=
        (mul_lt_mul_left hb).2 (Int.fract_lt_one _)
    _ = b := mul_one b

/-- C7: for every (rational-modelled float) seconds value, `format_duration`
computes `hours = floor(s/3600)`, `minutes = floor((s mod 3600)/60)` and
`secs = floor(s mod 60)` — truncation agrees with floor because the Python
`%` results are non-negative — and renders zero-padded `HH:MM:SS` when
`hours > 0`, else zero-padded `MM:SS`; in particular the six boundary values
render as stated. -/
theorem format_duration_floor_spec :
    (∀ s : ℚ, format_duration s =
      (if 0 < ⌊s / 3600⌋ then
        format02d ⌊s / 3600⌋ ++ ":" ++ format02d ⌊pyMod s 3600 / 60⌋ ++ ":" ++
          format02d ⌊pyMod s 60⌋
      else format02d ⌊pyMod s 3600 / 60⌋ ++ ":" ++ format02d ⌊pyMod s 60⌋)) ∧
    format_duration 0 = "00:00" ∧
    format_duration 45 = "00:45" ∧
    format_duration 60 = "01:00" ∧
    format_duration 125 = "02:05" ∧
    format_duration 3661 = "01:01:01" ∧
    format_duration 7200 = "02:00:00" := by
  have key : ∀ s : ℚ, format_duration s =
      (if 0 < ⌊s / 3600⌋ then
        format02d ⌊s / 3600⌋ ++ ":" ++ format02d ⌊pyMod s 3600 / 60⌋ ++ ":" ++
          format02d ⌊pyMod s 60⌋
      else format02d ⌊pyMod s 3600 / 60⌋ ++ ":" ++ format02d ⌊pyMod s 60⌋) := by
    intro s
    unfold format_duration pyFloorDiv
    rw [pyInt_intCast, pyInt_intCast,
      pyInt_eq_floor (pyMod_nonneg (by norm_num) s)]
  refine ⟨key, ?_, ?_, ?_, ?_, ?_, ?_⟩ <;>
    · rw [key]
      norm_num [pyMod]
      decide

/-- C3 (amended): the required-space figure `convert_file` passes to the disk
check is `max(int(inputSizeMB * 0.15), 10)`: Python truncates
`inputSizeMB * 0.15` to an integer *before* taking the max, so the value is
`max(floor(inputSizeMB * 0.15), 10)`, not `max(inputSizeMB * 0.15, 10)`. -/
theorem estimated_output_size_floor (st_size : ℕ) :
    estimated_output_size st_size =
      max ⌊((st_size : ℚ) / (1024 * 1024)) * (15 / 100)⌋ 10 := by
  show max (pyInt (((st_size : ℚ) / (1024 * 1024)) * (15 / 100))) 10 = _
  rw [pyInt_eq_floor (by positivity)]

/-- C3 counterexample: a 70 MiB input (73400320 bytes). The code passes
`max(int(70 * 0.15), 10) = 10` MB, while the claimed formula
`max(inputSizeMB * 0.15, 10)` gives `10.5` MB. -/
theorem estimated_output_size_not_exact :
    estimated_output_size 73400320 = 10 ∧
    ((estimated_output_size 73400320 : ℤ) : ℚ) ≠
      max (((73400320 : ℚ) / (1024 * 1024)) * (15 / 100)) 10 := by
  have h10 : estimated_output_size 73400320 = 10 := by
    rw [estimated_output_size_floor]
    norm_num
  constructor
  · exact h10
  · rw [h10]
    norm_num

/-! ## Byte-size formatting lemmas -/

theorem roundHalfEven_intCast (n : ℤ) : roundHalfEven ((n : ℤ) : ℚ) = n := by
  unfold roundHalfEven
  rw [Int.floor_intCast]
  norm_num

theorem formatOneDecimal_eq (q : ℚ) :
    formatOneDecimal q =
      toString (roundHalfEven (q * 10) / 10) ++ "." ++
        toString (roundHalfEven (q * 10) % 10) := rfl

theorem toString_int_length_one {d : ℤ} (h0 : 0 ≤ d) (h10 : d < 10) :
    (toString d).length = 1 := by
  interval_cases d <;> decide

/-- C8: `format_file_size` selects its unit at 1024-byte thresholds — below
1024 the integer with " B", below 1024² one-decimal KB, below 1024³
one-decimal MB, else one-decimal GB, always with exactly one decimal digit —
and the six boundary examples render as stated. -/
theorem format_file_size_thresholds :
    (∀ n : ℕ,
      (n < 1024 → format_file_size (n : ℤ) = toString (n : ℤ) ++ " B") ∧
      (1024 ≤ n → n < 1048576 → ∃ k d : ℤ, 0 ≤ d ∧ d < 10 ∧
        (toString d).length = 1 ∧
        format_file_size (n : ℤ) = toString k ++ "." ++ toString d ++ " KB") ∧
      (1048576 ≤ n → n < 1073741824 → ∃ k d : ℤ, 0 ≤ d ∧ d < 10 ∧
        (toString d).length = 1 ∧
        format_file_size (n : ℤ) = toString k ++ "." ++ toString d ++ " MB") ∧
      (1073741824 ≤ n → ∃ k d : ℤ, 0 ≤ d ∧ d < 10 ∧
        (toString d).length = 1 ∧
        format_file_size (n : ℤ) = toString k ++ "." ++ toString d ++ " GB")) ∧
    format_file_size 0 = "0 B" ∧
    format_file_size 1023 = "1023 B" ∧
    format_file_size 1024 = "1.0 KB" ∧
    format_file_size 1536 = "1.5 KB" ∧
    format_file_size 1048576 = "1.0 MB" ∧
    format_file_size 1073741824 = "1.0 GB" := by
  have hmod0 : ∀ r : ℤ, 0 ≤ r % 10 := fun r =>
    Int.emod_nonneg r (by norm_num)
  have hmod10 : ∀ r : ℤ, r % 10 < 10 := fun r =>
    Int.emod_lt_of_pos r (by norm_num)
  refine ⟨?_, by decide, by decide, ?_, ?_, ?_, ?_⟩
  · intro n
    refine ⟨?_, ?_, ?_, ?_⟩
    · intro h
      unfold format_file_size
      rw [if_pos (by omega)]
    · intro h1 h2
      refine ⟨roundHalfEven (((n : ℤ) : ℚ) / 1024 * 10) / 10,
        roundHalfEven (((n : ℤ) : ℚ) / 1024 * 10) % 10,
        hmod0 _, hmod10 _, toString_int_length_one (hmod0 _) (hmod10 _), ?_⟩
      unfold format_file_size
      rw [if_neg (by omega), if_pos (by omega)]
      rfl
    · intro h1 h2
      refine ⟨roundHalfEven (((n : ℤ) : ℚ) / (1024 * 1024) * 10) / 10,
        roundHalfEven (((n : ℤ) : ℚ) / (1024 * 1024) * 10) % 10,
        hmod0 _, hmod10 _, toString_int_length_one (hmod0 _) (hmod10 _), ?_⟩
      unfold format_file_size
      rw [if_neg (by omega), if_neg (by omega), if_pos (by omega)]
      rfl
    · intro h1
      refine ⟨roundHalfEven (((n : ℤ) : ℚ) / (1024 * 1024 * 1024) * 10) / 10,
        roundHalfEven (((n : ℤ) : ℚ) / (1024 * 1024 * 1024) * 10) % 10,
        hmod0 _, hmod10 _, toString_int_length_one (hmod0 _) (hmod10 _), ?_⟩
      unfold format_file_size
      rw [if_neg (by omega), if_neg (by omega), if_neg (by omega)]
      rfl
  · have harg : ((1024 : ℤ) : ℚ) / 1024 * 10 = ((10 : ℤ) : ℚ) := by norm_num
    unfold format_file_size
    rw [if_neg (by norm_num), if_pos (by norm_num), formatOneDecimal_eq, harg,
      roundHalfEven_intCast]
    decide
  · have harg : ((1536 : ℤ) : ℚ) / 1024 * 10 = ((15 : ℤ) : ℚ) := by norm_num
    unfold format_file_size
    rw [if_neg (by norm_num), if_pos (by norm_num), formatOneDecimal_eq, harg,
      roundHalfEven_intCast]
    decide
  · have harg : ((1048576 : ℤ) : ℚ) / (1024 * 1024) * 10 = ((10 : ℤ) : ℚ) := by
      norm_num
    unfold format_file_size
    rw [if_neg (by norm_num), if_neg (by norm_num), if_pos (by norm_num),
      formatOneDecimal_eq, harg, roundHalfEven_intCast]
    decide
  · have harg : ((1073741824 : ℤ) : ℚ) / (1024 * 1024 * 1024) * 10
        = ((10 : ℤ) : ℚ) := by norm_num
    unfold format_file_size
    rw [if_neg (by norm_num), if_neg (by norm_num), if_neg (by norm_num),
      formatOneDecimal_eq, harg, roundHalfEven_intCast]
    decide

/-- C8 witness: the KB branch of the theorem applied at 2048 bytes. -/
theorem format_file_size_thresholds_witness :
    (1024 ≤ 2048 ∧ 2048 < 1048576) ∧
    ∃ k d : ℤ, 0 ≤ d ∧ d < 10 ∧ (toString d).length = 1 ∧
      format_file_size ((2048 : ℕ) : ℤ) = toString k ++ "." ++ toString d ++ " KB" :=
  ⟨⟨by decide, by decide⟩,
    (format_file_size_thresholds.1 2048).2.1 (by decide) (by decide)⟩

/-! ## Error classification and conversion-flow lemmas -/

theorem strContains_append_suffix (pre s : String) :
    strContains (pre ++ s) s = true := by
  unfold strContains
  simp only [decide_eq_true_eq]
  show s.data <:+: (pre ++ s).data
  rw [String.data_append]
  exact ⟨pre.data, [], by simp⟩

/-- C1: classification of the captured encoder diagnostic text is by
substring match in priority order — "Permission denied" / "Access is denied"
first (PermissionDenied), then "Resource busy" / "being used by another
process" (FileInUse), then "No space left" (InsufficientSpace), and any other
text yields ConversionFailed whose message contains the diagnostic text
verbatim. -/
theorem classify_ffmpeg_error_priority :
    ∀ (msg : String) (p : PyPath),
      ((strContains msg ("Permission denied") = true ∨
          strContains msg ("Access is denied") = true) →
        (classify_ffmpeg_error msg p).kind = ErrorKind.permissionDenied) ∧
      (strContains msg ("Permission denied") = false →
        strContains msg ("Access is denied") = false →
        (strContains msg ("Resource busy") = true ∨
            strContains msg ("being used by another process") = true) →
        (classify_ffmpeg_error msg p).kind = ErrorKind.fileInUse) ∧
      (strContains msg ("Permission denied") = false →
        strContains msg ("Access is denied") = false →
        strContains msg ("Resource busy") = false →
        strContains msg ("being used by another process") = false →
        strContains msg ("No space left") = true →
        (classify_ffmpeg_error msg p).kind = ErrorKind.insufficientSpace) ∧
      (strContains msg ("Permission denied") = false →
        strContains msg ("Access is denied") = false →
        strContains msg ("Resource busy") = false →
        strContains msg ("being used by another process") = false →
        strContains msg ("No space left") = false →
        (classify_ffmpeg_error msg p).kind = ErrorKind.conversionFailed ∧
        strContains ((classify_ffmpeg_error msg p).message) msg = true) := by
  intro msg p
  refine ⟨?_, ?_, ?_, ?_⟩
  · rintro (h | h) <;>
      simp [classify_ffmpeg_error, h, ConverterError.kind]
  · rintro h1 h2 (h | h) <;>
      simp [classify_ffmpeg_error, h1, h2, h, ConverterError.kind]
  · intro h1 h2 h3 h4 h5
    simp [classify_ffmpeg_error, h1, h2, h3, h4, h5, ConverterError.kind]
  · intro h1 h2 h3 h4 h5
    constructor
    · simp [classify_ffmpeg_error, h1, h2, h3, h4, h5, ConverterError.kind]
    · have hm : (classify_ffmpeg_error msg p).message =
          "変換中にエラーが発生しました: " ++ msg := by
        simp [classify_ffmpeg_error, h1, h2, h3, h4, h5, ConverterError.message]
      rw [hm]
      exact strContains_append_suffix _ _

/-- C1 witness: an unrecognized diagnostic is classified ConversionFailed and
its message carries the diagnostic verbatim. -/
theorem classify_ffmpeg_error_priority_witness :
    strContains ("Unknown encoder mp3x") ("Permission denied") = false ∧
    (classify_ffmpeg_error ("Unknown encoder mp3x") ["in.mp4"]).kind =
      ErrorKind.conversionFailed ∧
    strContains ((classify_ffmpeg_error ("Unknown encoder mp3x") ["in.mp4"]).message)
      ("Unknown encoder mp3x") = true := by
  have h := (classify_ffmpeg_error_priority ("Unknown encoder mp3x") ["in.mp4"]).2.2.2
    (by decide) (by decide) (by decide) (by decide) (by decide)
  exact ⟨by decide, h.1, h.2⟩

/-- C2 (amended): inside the pre-flight space check, an OS error raised by
`stat` on the input file is reported as PermissionDenied, but an OS error
raised inside the disk-usage query is wrapped by `check_disk_space` into
InsufficientSpace before it can reach the `except OSError` handler of
`convert_file` (`InsufficientSpaceError` is not an `OSError`), so the caller
sees InsufficientSpace there, not PermissionDenied. -/
theorem space_check_phase_error_kinds :
    ∀ (stat_size disk_usage : Except String Nat) (p : PyPath) (e : String),
      (stat_size = .error e →
        space_check_phase stat_size disk_usage p =
          .error (.permissionError ("ファイルにアクセスできません: " ++ e)
            (some (pathStr p)))) ∧
      (∀ n, stat_size = .ok n → disk_usage = .error e →
        space_check_phase stat_size disk_usage p =
          .error (.insufficientSpaceError
            ("容量チェック中にエラーが発生しました: " ++ e) none)) := by
  intro stat du p e
  constructor
  · intro h
    subst h
    rfl
  · intro n h1 h2
    subst h1
    subst h2
    rfl

/-- C2 witness: the stat-failure branch of the theorem at concrete outcomes. -/
theorem space_check_phase_error_kinds_witness :
    space_check_phase (Except.error ("boom")) (Except.ok 0) ["a.mp4"] =
      Except.error (ConverterError.permissionError
        ("ファイルにアクセスできません: " ++ "boom") (some (pathStr ["a.mp4"]))) :=
  (space_check_phase_error_kinds (Except.error ("boom")) (Except.ok 0)
    ["a.mp4"] "boom").1 rfl

/-- C2 counterexample: an OS error during the disk-usage probe itself is
reported as InsufficientSpace, not PermissionDenied, refuting the claim that
every OS-level failure of the pre-flight check yields PermissionDenied. -/
theorem space_check_disk_usage_oserror_not_permission :
    space_check_phase (Except.ok 0) (Except.error ("Input/output error"))
        ["video.mp4"] =
      Except.error (ConverterError.insufficientSpaceError
        ("容量チェック中にエラーが発生しました: Input/output error") none) ∧
    (ConverterError.insufficientSpaceError
        ("容量チェック中にエラーが発生しました: Input/output error") none).kind ≠
      ErrorKind.permissionDenied := by
  constructor
  · rfl
  · decide

/-- C4: for an existing input whose extension is outside the allow-list,
`convert_file` raises UnsupportedFormat with the rejected extension in the
message and never launches the encoder subprocess (the Bool component of the
result records whether `ffmpeg.run` was reached). -/
theorem convert_file_unsupported_format :
    ∀ (env : ConvertEnv) (p d : PyPath),
      env.inputExists = true →
      is_supported_video_format p = false →
      convert_file env p d =
        (.error (.unsupportedFormatError
          ("対応していない形式です: " ++ pySuffix (pathName p))
          (some (pathStr p))), false) ∧
      strContains ("対応していない形式です: " ++ pySuffix (pathName p))
        (pySuffix (pathName p)) = true := by
  intro env p d h1 h2
  constructor
  · simp [convert_file, h1, h2]
  · exact strContains_append_suffix _ _

/-- C4 witness: a `.xyz` input with every environment probe healthy. -/
theorem convert_file_unsupported_format_witness :
    is_supported_video_format (["video.xyz"] : PyPath) = false ∧
    convert_file ⟨true, Except.ok 0, Except.ok 0, RunOutcome.ok⟩
        ["video.xyz"] ["mp3"] =
      (Except.error (ConverterError.unsupportedFormatError
        ("対応していない形式です: " ++ pySuffix (pathName (["video.xyz"] : PyPath)))
        (some (pathStr (["video.xyz"] : PyPath)))), false) :=
  ⟨by decide,
    (convert_file_unsupported_format ⟨true, Except.ok 0, Except.ok 0, RunOutcome.ok⟩
      ["video.xyz"] ["mp3"] rfl (by decide)).1⟩

/-- C9: `get_video_files` returns exactly the regular directory entries whose
extension is supported, sorted lexicographically by filename, and returns the
empty list (without raising) when the directory is missing or not a
directory; the `c.mp4, a.mp4, b.mp4` example comes back sorted. -/
theorem get_video_files_spec :
    (∀ d : DirState, (d.present = false ∨ d.is_dir = false) →
      get_video_files d = []) ∧
    (∀ (d : DirState) (n : String),
      n ∈ get_video_files d ↔
        d.present = true ∧ d.is_dir = true ∧
          ∃ e ∈ d.entries, e.name = n ∧ e.isFile = true ∧
            isSupportedName n = true) ∧
    (∀ d : DirState, List.Sorted (· ≤ ·) (get_video_files d)) ∧
    get_video_files ⟨true, true,
        [⟨"c.mp4", true⟩, ⟨"a.mp4", true⟩, ⟨"b.mp4", true⟩]⟩ =
      ["a.mp4", "b.mp4", "c.mp4"] := by
  refine ⟨?_, ?_, ?_, ?_⟩
  · intro d h
    unfold get_video_files
    rcases h with h | h <;> simp [h]
  · intro d n
    unfold get_video_files
    by_cases hp : d.present = true <;> by_cases hd : d.is_dir = true <;>
      simp only [hp, hd, Bool.true_and, Bool.false_and, Bool.and_true,
        Bool.and_false, if_true, if_false, Bool.and_self, List.not_mem_nil,
        false_iff, not_and, if_pos, if_neg, Bool.false_eq_true, ite_true,
        ite_false, List.mem_insertionSort, List.mem_map, List.mem_filter]
    · constructor
      · rintro ⟨a, ⟨ha, hfa⟩, rfl⟩
        rw [Bool.and_eq_true] at hfa
        exact ⟨by simp [hp], by simp [hd], a, ha, rfl, hfa.1, hfa.2⟩
      · rintro ⟨-, -, a, ha, rfl, hf, hs⟩
        exact ⟨a, ⟨ha, by rw [Bool.and_eq_true]; exact ⟨hf, hs⟩⟩, rfl⟩
    · simp [hd]
    · simp [hp]
    · simp [hp]
  · intro d
    unfold get_video_files
    split
    · exact List.sorted_insertionSort _ _
    · exact List.sorted_nil
  · simp +decide [get_video_files, List.insertionSort, List.orderedInsert,
      String.le_iff_toList_le]

/-- C9 witness: a missing directory yields the empty list. -/
theorem get_video_files_spec_witness :
    (⟨false, true, [⟨"a.mp4", true⟩]⟩ : DirState).present = false ∧
    get_video_files ⟨false, true, [⟨"a.mp4", true⟩]⟩ = [] :=
  ⟨rfl, get_video_files_spec.1 ⟨false, true, [⟨"a.mp4", true⟩]⟩ (Or.inl rfl)⟩

/-- C6: `get_file_info` never raises — every failure of the probe call or of
result parsing is caught and returned as a value carrying only an error
message (with the fixed prefix), a success is returned as the info record,
and an absent video/audio stream yields the "不明" (unknown) placeholders
rather than a failure. -/
theorem get_file_info_never_raises :
    ∀ (probe_res : Except String ProbeDoc) (file_name : String),
      (∀ e, get_file_info_body probe_res file_name = .error e →
        get_file_info probe_res file_name =
          .error ("ファイル情報の取得に失敗しました: " ++ e)) ∧
      (∀ d, get_file_info_body probe_res file_name = .ok d →
        get_file_info probe_res file_name = .info d) ∧
      (∀ doc ss d, probe_res = .ok doc → doc.streams = some ss →
        get_file_info_body probe_res file_name = .ok d →
        ((∀ s ∈ ss, s.codec_type ≠ "video") → d.video_codec = "不明") ∧
        ((∀ s ∈ ss, s.codec_type ≠ "audio") →
          d.audio_codec = "不明" ∧ d.audio_bitrate = "不明" ∧
            d.sample_rate = "不明")) := by
  intro pr fn
  refine ⟨?_, ?_, ?_⟩
  · intro e h
    unfold get_file_info
    rw [h]
  · intro d h
    unfold get_file_info
    rw [h]
  · intro doc ss d hpr hss hbody
    subst hpr
    simp only [get_file_info_body, get_streams, hss] at hbody
    cases hsz : parse_size_field (doc.format.getD ⟨none, none, none⟩).size with
    | error e =>
      rw [hsz] at hbody
      exact Except.noConfusion hbody
    | ok sz =>
      rw [hsz] at hbody
      cases hdur : parse_duration_field
          (doc.format.getD ⟨none, none, none⟩).duration with
      | error e =>
        rw [hdur] at hbody
        exact Except.noConfusion hbody
      | ok du =>
        rw [hdur] at hbody
        have hd : mk_file_info fn ss (doc.format.getD ⟨none, none, none⟩)
            sz du = d := Except.ok.inj hbody
        subst hd
        constructor
        · intro hnov
          have hfind : ss.find? (fun s => s.codec_type = "video") = none := by
            rw [List.find?_eq_none]
            intro x hx
            simp [hnov x hx]
          simp [mk_file_info, streamGet, hfind]
        · intro hnoa
          have hfind : ss.find? (fun s => s.codec_type = "audio") = none := by
            rw [List.find?_eq_none]
            intro x hx
            simp [hnoa x hx]
          simp [mk_file_info, streamGet, hfind]

/-- C6 witness: a failed probe is wrapped into the error-shaped value, and a
stream-less document yields placeholder codec fields. -/
theorem get_file_info_never_raises_witness :
    get_file_info (Except.error ("probe failed")) "x.mp4" =
      FileInfoResult.error ("ファイル情報の取得に失敗しました: " ++ "probe failed") ∧
    (⟨"x.mp4", "0 B", 0, "不明", "不明", "不明", "不明", "不明"⟩ :
      FileInfo).video_codec = "不明" := by
  constructor
  · exact (get_file_info_never_raises (Except.error ("probe failed"))
      "x.mp4").1 "probe failed" rfl
  · exact ((get_file_info_never_raises
      (Except.ok ⟨some [], some ⟨none, none, none⟩⟩) "x.mp4").2.2
      ⟨some [], some ⟨none, none, none⟩⟩ []
      ⟨"x.mp4", "0 B", 0, "不明", "不明", "不明", "不明", "不明"⟩
      rfl rfl rfl).1 (by simp)

end VideoToAudio
